import Mathlib

/-!
Shallow embedding of the weather ingestion-and-export backend
(`models/database.py`, `services/weather_service.py`, `services/export_service.py`,
`app.py`), together with theorems settling the specification claims.

Modelling conventions:
* Timestamps are ISO-8601 strings of a fixed format in the source; lexicographic
  comparison on them agrees with chronological order, so they are modelled as
  integers (`Ts`).  `datetime('now', '-N days')` becomes `now - 24 * N` with time
  measured in hours.
* Floats are modelled as rationals (`ℚ`).
* The SQLite table has an `AUTOINCREMENT` id and a `created_at` insertion
  timestamp; both grow with arrival order, so `created_at` is modelled as the
  row's arrival index (strictly increasing across inserts).
* The external fetch (`requests.get`) is a parameter: an ingestion run is a
  function of the fetch outcome (`Except Err Hourly`).  Likewise a storage-engine
  failure during an insert is a Boolean parameter `engineOk`.
-/

deriving instance DecidableEq for Except

namespace WeatherApp

/-- Observation timestamp, hours since an arbitrary epoch. -/
abbrev Ts := Int

/-- One stored observation: the five selected columns of the `weather_data`
table (`timestamp, latitude, longitude, temperature_2m, relative_humidity_2m`).
The spec calls the last two attributes `temperature_celsius` and
`relative_humidity_percent`; the source's column names are kept here. -/
structure Obs where
  timestamp : Ts
  latitude : ℚ
  longitude : ℚ
  temperature_2m : ℚ
  relative_humidity_2m : ℚ
deriving DecidableEq, Repr, Inhabited

/-- A full table row: an observation plus the server-assigned `created_at`
insertion stamp (modelled as the arrival index). -/
structure DbRow where
  obs : Obs
  created_at : Nat
deriving DecidableEq, Repr

/-- The `weather_data` table, in insertion order.  `init_db` declares no
uniqueness constraint, so the table is a plain list that may hold duplicates. -/
abbrev Db := List DbRow

/-- A candidate tuple passed to `insert_weather_data`.  Every column of the
table is declared `NOT NULL`, so fields are `Option`s and a `none` field makes
the insert fail (constraint violation). -/
structure InsRow where
  timestamp : Option Ts
  latitude : Option ℚ
  longitude : Option ℚ
  temperature_2m : Option ℚ
  relative_humidity_2m : Option ℚ
deriving DecidableEq, Repr

/-- A candidate row passes the `NOT NULL` constraints iff every field is
present. -/
def InsRow.toObs (r : InsRow) : Option Obs :=
  match r.timestamp, r.latitude, r.longitude, r.temperature_2m, r.relative_humidity_2m with
  | some t, some la, some lo, some te, some hu => some ⟨t, la, lo, te, hu⟩
  | _, _, _, _, _ => none

/-- The tuple `(timestamps[i], latitude, longitude, temp, hum)` built by
`process_weather_data`: all fields present. -/
def Obs.toInsRow (o : Obs) : InsRow :=
  ⟨some o.timestamp, some o.latitude, some o.longitude,
   some o.temperature_2m, some o.relative_humidity_2m⟩

/-- Failure taxonomy of the pipeline (the Python code raises plain
exceptions; these carry the corresponding messages). -/
inductive Err
  | fetchError (msg : String)
  | missingFields
  | indexError
  | persistenceError
deriving DecidableEq, Repr

/-- The `str(e)` of each exception as it reaches `fetch_and_store_weather_data`'s
handler. -/
def Err.message : Err → String
  | .fetchError m => "Failed to fetch weather data: " ++ m
  | .missingFields => "Invalid API response: Missing required data fields"
  | .indexError => "list index out of range"
  | .persistenceError => "database error"

/-! ### models/database.py -/

/-- The row-by-row effect of `cursor.executemany` inside the open transaction:
rows are appended in order, each receiving the next `created_at` stamp
(`db.length` = arrival index); a constraint violation aborts with `none`. -/
def insertSeq (db : Db) : List InsRow → Option Db
  | [] => some db
  | r :: rs =>
    match r.toObs with
    | none => none
    | some o => insertSeq (db ++ [⟨o, db.length⟩]) rs

/-- `insert_weather_data` (`models/database.py` lines 46-61): bulk insert via
`executemany` in one transaction, `commit` on success returning
`cursor.rowcount` (= number of rows of the batch), `rollback` and re-raise on
any failure.  `engineOk = false` models a storage-engine failure. -/
def insert_weather_data (db : Db) (batch : List InsRow) (engineOk : Bool) :
    Db × Except Err Nat :=
  if engineOk then
    match insertSeq db batch with
    | some db2 => (db2, .ok batch.length)
    | none => (db, .error .persistenceError)
  else (db, .error .persistenceError)

/-- Ascending-timestamp order on observations (used by the pandas
`sort_values('timestamp')` re-sort in the exporters). -/
def Obs.tsLe (a b : Obs) : Prop := a.timestamp ≤ b.timestamp

/-- Descending-timestamp order on observations (the SQL `ORDER BY timestamp
DESC`). -/
def Obs.tsGe (a b : Obs) : Prop := b.timestamp ≤ a.timestamp

instance : DecidableRel Obs.tsLe := fun a b =>
  inferInstanceAs (Decidable (a.timestamp ≤ b.timestamp))

instance : DecidableRel Obs.tsGe := fun a b =>
  inferInstanceAs (Decidable (b.timestamp ≤ a.timestamp))

instance : IsTotal Obs Obs.tsLe := ⟨fun a b => le_total a.timestamp b.timestamp⟩

instance : IsTrans Obs Obs.tsLe := ⟨fun _ _ _ h1 h2 => le_trans h1 h2⟩

instance : IsTotal Obs Obs.tsGe := ⟨fun a b => le_total b.timestamp a.timestamp⟩

instance : IsTrans Obs Obs.tsGe := ⟨fun _ _ _ h1 h2 => le_trans h2 h1⟩

/-- `get_weather_data_by_location` (`models/database.py` lines 96-112):
`SELECT` the five columns `WHERE latitude = ? AND longitude = ? AND
datetime(timestamp) >= datetime('now', '-{days} days') ORDER BY timestamp
DESC`.  Exact equality on the coordinates, trailing window of `24 * days`
hours ending at `now`. -/
def get_weather_data_by_location (now : Ts) (latitude longitude : ℚ) (days : Int)
    (db : Db) : List Obs :=
  List.insertionSort Obs.tsGe
    ((db.filter fun r =>
      decide (r.obs.latitude = latitude ∧ r.obs.longitude = longitude ∧
        now - 24 * days ≤ r.obs.timestamp)).map DbRow.obs)

/-- One comparison step of the `ORDER BY created_at DESC LIMIT 1` scan: keep
whichever row was inserted later. -/
def pickLater (acc : Option DbRow) (r : DbRow) : Option DbRow :=
  match acc with
  | none => some r
  | some m => if m.created_at < r.created_at then some r else some m

/-- The `SELECT latitude, longitude FROM weather_data ORDER BY created_at DESC
LIMIT 1` step of `get_latest_location_data`: the row with the greatest
`created_at`. -/
def latestRow (db : Db) : Option DbRow :=
  db.foldl pickLater none

/-- `get_latest_location_data` (`models/database.py` lines 114-145): find the
`(lat, lon)` of the most recently inserted row; empty store returns `[]`;
otherwise run the same windowed location query as
`get_weather_data_by_location` with a 2-day window (the source repeats the
identical SQL text inline). -/
def get_latest_location_data (now : Ts) (db : Db) : List Obs :=
  match latestRow db with
  | none => []
  | some m => get_weather_data_by_location now m.obs.latitude m.obs.longitude 2 db

/-! ### services/weather_service.py -/

/-- A parsed query-string parameter value.  Python's `float(s)` either yields
a number or raises `ValueError` (`nonNumeric`). -/
inductive PVal
  | nonNumeric
  | num (x : ℚ)
deriving DecidableEq, Repr

/-- A query parameter: `none` models an absent parameter and also the empty
string (both are falsy under the source's `if not lat or not lon` check). -/
abbrev Param := Option PVal

def msg_required : String := "Both lat and lon parameters are required"

def msg_notNumbers : String := "Invalid latitude or longitude values - must be numbers"

def msg_latRange : String := "Latitude must be between -90 and 90"

def msg_lonRange : String := "Longitude must be between -180 and 180"

/-- `_validate_coordinates_input` (`weather_service.py` lines 41-76): presence
check first; then both `float` conversions (a `ValueError` from either yields
the "must be numbers" response before any range check); then the latitude
range check, then the longitude range check.  Returns the 400-response message,
or `none` when validation passes. -/
def validate_coordinates_input : Param → Param → Option String
  | none, _ => some msg_required
  | _, none => some msg_required
  | some a, some b =>
    match a, b with
    | PVal.num x, PVal.num y =>
      if ¬(-90 ≤ x ∧ x ≤ 90) then some msg_latRange
      else if ¬(-180 ≤ y ∧ y ≤ 180) then some msg_lonRange
      else none
    | _, _ => some msg_notNumbers

/-- The `hourly` section of the upstream JSON response.  `api_response.get('hourly', {})`
followed by `.get(field, [])` turns a missing section or field into an empty
list; a `null` entry in the temperature or humidity arrays is `none`. -/
structure Hourly where
  time : List Ts
  temperature_2m : List (Option ℚ)
  relative_humidity_2m : List (Option ℚ)
deriving DecidableEq, Repr

/-- The row-building loop of `process_weather_data` (lines 112-120):
`for i in range(len(timestamps))` builds one tuple per time entry, replacing a
`null` temperature or humidity with `0.0`; indexing past the end of a shorter
parallel array raises `IndexError`, discarding all rows. -/
def buildRows (latitude longitude : ℚ) :
    List Ts → List (Option ℚ) → List (Option ℚ) → Except Err (List Obs)
  | [], _, _ => .ok []
  | t :: ts, te :: tes, hu :: hus => do
    let rest ← buildRows latitude longitude ts tes hus
    .ok (⟨t, latitude, longitude, te.getD 0, hu.getD 0⟩ :: rest)
  | _ :: _, [], _ => .error .indexError
  | _ :: _, _ :: _, [] => .error .indexError

/-- `process_weather_data` (`weather_service.py` lines 100-122): reject a
response in which any of the three arrays is empty or absent, then build one
row per index of the time array. -/
def process_weather_data (resp : Hourly) (latitude longitude : ℚ) :
    Except Err (List Obs) :=
  if resp.time = [] ∨ resp.temperature_2m = [] ∨ resp.relative_humidity_2m = [] then
    .error .missingFields
  else
    buildRows latitude longitude resp.time resp.temperature_2m resp.relative_humidity_2m

def DAYS_TO_FETCH : Nat := 2

/-- The JSON summary returned by `fetch_and_store_weather_data`. -/
inductive Summary
  | success (message : String) (records_count : Nat) (latitude longitude : ℚ)
      (date_range : String)
  | error (message : String)
deriving DecidableEq, Repr

def Summary.isSuccess : Summary → Bool
  | .success .. => true
  | .error _ => false

/-- `fetch_and_store_weather_data` (`weather_service.py` lines 124-155):
fetch → process → insert; any raised exception is caught and turned into
`{status: error, message}` with the store left as the failing step left it
(the insert rolls itself back).  The external fetch outcome is the
`fetchResult` parameter. -/
def fetch_and_store_weather_data (fetchResult : Except Err Hourly)
    (latitude longitude : ℚ) (db : Db) (engineOk : Bool) : Db × Summary :=
  match fetchResult with
  | .error e => (db, .error e.message)
  | .ok resp =>
    match process_weather_data resp latitude longitude with
    | .error e => (db, .error e.message)
    | .ok rows =>
      match insert_weather_data db (rows.map Obs.toInsRow) engineOk with
      | (db2, .ok _) =>
        (db2, .success
          ("Successfully stored " ++ toString rows.length ++ " weather records")
          rows.length latitude longitude (toString DAYS_TO_FETCH ++ " days"))
      | (db2, .error e) => (db2, .error e.message)

/-- A JSON response body: either an `{'error': ..., 'status': 'error'}`
object or a serialized ingestion summary. -/
inductive Body
  | errJson (message : String)
  | summary (s : Summary)
deriving DecidableEq, Repr

/-- An HTTP response: status code and JSON body. -/
structure HttpResp where
  status : Nat
  body : Body
deriving DecidableEq, Repr

/-- `weather_report_endpoint` (`weather_service.py` lines 14-39): validate
first (400 on failure, before any fetch or store access); on success re-parse
the two floats and run the pipeline, mapping a success summary to 200 and an
error summary to 500.  The final catch-all (500 on an unexpected exception)
corresponds to the unreachable parameter shapes. -/
def weather_report_endpoint (latP lonP : Param) (fetchResult : Except Err Hourly)
    (db : Db) (engineOk : Bool) : Db × HttpResp :=
  match validate_coordinates_input latP lonP with
  | some m => (db, ⟨400, .errJson m⟩)
  | none =>
    match latP, lonP with
    | some (PVal.num x), some (PVal.num y) =>
      let r := fetch_and_store_weather_data fetchResult x y db engineOk
      match r.2 with
      | Summary.success .. => (r.1, ⟨200, .summary r.2⟩)
      | Summary.error _ => (r.1, ⟨500, .summary r.2⟩)
    | _, _ => (db, ⟨500, .errJson "Internal server error"⟩)

/-! ### services/export_service.py -/

/-- The shared data-selection block of `generate_excel_export` and
`generate_pdf_report` (the source repeats it verbatim in both): explicit
coordinates (`latitude is not None and longitude is not None`) select the
2-day by-location window, otherwise the most-recent-location window. -/
def export_selection (latitudeP longitudeP : Option ℚ) (now : Ts) (db : Db) :
    List Obs :=
  match latitudeP, longitudeP with
  | some la, some lo => get_weather_data_by_location now la lo 2 db
  | _, _ => get_latest_location_data now db

/-- The `location_msg` f-string of the no-data error: note the source tests
truthiness (`if latitude and longitude`), so a zero coordinate falls back to
"for the latest location". -/
def location_msg (latitudeP longitudeP : Option ℚ) : String :=
  match latitudeP, longitudeP with
  | some la, some lo =>
    if la ≠ 0 ∧ lo ≠ 0 then
      " for location (" ++ toString la ++ ", " ++ toString lo ++ ")"
    else " for the latest location"
  | _, _ => " for the latest location"

/-- The column header row written by `df.to_excel` — the DataFrame's dict
keys, in the order the row dicts are built by the store queries. -/
def EXCEL_COLUMNS : List String :=
  ["timestamp", "latitude", "longitude", "temperature_2m", "relative_humidity_2m"]

/-- The spreadsheet artifact: its sheet names, header row, and data rows in
sheet order. -/
structure ExcelFile where
  sheets : List String
  columns : List String
  rows : List Obs
deriving DecidableEq, Repr

/-- `generate_excel_export` (`export_service.py` lines 99-154): select data
(by-location when both coordinates are given, latest location otherwise),
raise `ValueError("No weather data available for export...")` when the
selection is empty, otherwise re-sort ascending by timestamp and write a
single sheet named "Weather Data". -/
def generate_excel_export (latitudeP longitudeP : Option ℚ) (now : Ts) (db : Db) :
    Except String ExcelFile :=
  if export_selection latitudeP longitudeP now db = [] then
    .error ("No weather data available for export" ++ location_msg latitudeP longitudeP)
  else
    .ok ⟨["Weather Data"], EXCEL_COLUMNS,
      List.insertionSort Obs.tsLe (export_selection latitudeP longitudeP now db)⟩

/-- The string rendering of one row's cells (used only for column widths). -/
def Obs.cellStrings (o : Obs) : List String :=
  [toString o.timestamp, toString o.latitude, toString o.longitude,
   toString o.temperature_2m, toString o.relative_humidity_2m]

/-- The cell-content lengths of column `j` of the sheet, header first (the
width loop iterates over every cell of the column, header row included). -/
def columnLengths (f : ExcelFile) (j : Nat) : List Nat :=
  (f.columns.getD j "").length :: f.rows.map fun o => ((o.cellStrings).getD j "").length

/-- `adjusted_width = min(max_length + 2, 50)` (`export_service.py` line 143),
where `max_length` is the longest cell string of the column. -/
def adjusted_width (lens : List Nat) : Nat :=
  min (lens.foldl max 0 + 2) 50

/-- The widths assigned to the sheet's columns by the loop of lines 134-144. -/
def excel_column_widths (f : ExcelFile) : List Nat :=
  (List.range f.columns.length).map fun j => adjusted_width (columnLengths f j)

/-- The PDF artifact: the metadata filled into the report template plus the
charted rows. -/
structure PdfFile where
  latitude : ℚ
  longitude : ℚ
  record_count : Nat
  rows : List Obs
deriving DecidableEq, Repr

/-- `generate_pdf_report` (`export_service.py` lines 156-217): same selection
and no-data failure as the spreadsheet export; otherwise sort ascending,
chart, and fill the template with the first sorted row's location and the
record count. -/
def generate_pdf_report (latitudeP longitudeP : Option ℚ) (now : Ts) (db : Db) :
    Except String PdfFile :=
  if export_selection latitudeP longitudeP now db = [] then
    .error ("No weather data available for PDF report" ++ location_msg latitudeP longitudeP)
  else
    .ok ⟨((List.insertionSort Obs.tsLe (export_selection latitudeP longitudeP now db)).headD
        default).latitude,
      ((List.insertionSort Obs.tsLe (export_selection latitudeP longitudeP now db)).headD
        default).longitude,
      (List.insertionSort Obs.tsLe (export_selection latitudeP longitudeP now db)).length,
      List.insertionSort Obs.tsLe (export_selection latitudeP longitudeP now db)⟩

/-- The query parameters of an export request as Flask delivers them. -/
structure ExportArgs where
  lat : Option ℚ
  lon : Option ℚ
deriving DecidableEq, Repr

/-- `excel_export_endpoint` (`export_service.py` lines 22-58).  The handler
body calls `generate_excel_export()` with no arguments — it never reads
`request.args` — so the request's query parameters `args` are accepted and
ignored.  Generator success is a 200 file response; any raised exception is a
500 `{'error': 'Excel export failed: ...'}`. -/
def excel_export_endpoint (args : ExportArgs) (now : Ts) (db : Db) :
    Nat × Except String ExcelFile :=
  match generate_excel_export none none now db with
  | .ok f => (200, .ok f)
  | .error m => (500, .error ("Excel export failed: " ++ m))

/-- `pdf_export_endpoint` (`export_service.py` lines 61-97): same shape as the
spreadsheet endpoint, also calling `generate_pdf_report()` with no arguments. -/
def pdf_export_endpoint (args : ExportArgs) (now : Ts) (db : Db) :
    Nat × Except String PdfFile :=
  match generate_pdf_report none none now db with
  | .ok f => (200, .ok f)
  | .error m => (500, .error ("PDF export failed: " ++ m))

/-- The rows a successful batch insert appends: each observation stamped with
consecutive `created_at` values starting at `start`. -/
def withCreated (start : Nat) : List Obs → List DbRow
  | [] => []
  | o :: os => ⟨o, start⟩ :: withCreated (start + 1) os

/-! ### Helper lemmas -/

theorem withCreated_map_obs (start : Nat) (os : List Obs) :
    (withCreated start os).map DbRow.obs = os := by
  induction os generalizing start with
  | nil => rfl
  | cons o os ih => simp [withCreated, ih]

theorem withCreated_length (start : Nat) (os : List Obs) :
    (withCreated start os).length = os.length := by
  induction os generalizing start with
  | nil => rfl
  | cons o os ih => simp [withCreated, ih]

theorem insertSeq_all_some :
    ∀ (batch : List InsRow) (db : Db),
      (∀ r ∈ batch, (InsRow.toObs r).isSome) →
      insertSeq db batch
        = some (db ++ withCreated db.length (batch.filterMap InsRow.toObs)) := by
  intro batch
  induction batch with
  | nil => intro db _; simp [insertSeq, withCreated]
  | cons r rs ih =>
    intro db h
    have hr : (InsRow.toObs r).isSome := h r (by simp)
    rcases ho : InsRow.toObs r with _ | o
    · rw [ho] at hr; simp at hr
    · have hrest := ih (db ++ [⟨o, db.length⟩]) (fun x hx => h x (by simp [hx]))
      simp only [insertSeq, ho]
      rw [hrest]
      simp [List.filterMap_cons, ho, withCreated, List.append_assoc]

theorem insertSeq_none :
    ∀ (batch : List InsRow) (db : Db),
      (∃ r ∈ batch, InsRow.toObs r = none) →
      insertSeq db batch = none := by
  intro batch
  induction batch with
  | nil => intro db h; simp at h
  | cons r rs ih =>
    intro db h
    rcases ho : InsRow.toObs r with _ | o
    · simp [insertSeq, ho]
    · rcases h with ⟨x, hx, hxo⟩
      rcases List.mem_cons.mp hx with rfl | hx'
      · rw [ho] at hxo; cases hxo
      · simp only [insertSeq, ho]
        exact ih _ ⟨x, hx', hxo⟩

theorem filterMap_toObs_map (os : List Obs) :
    (os.map Obs.toInsRow).filterMap InsRow.toObs = os := by
  induction os with
  | nil => rfl
  | cons o os ih => simp [Obs.toInsRow, InsRow.toObs, ih]

theorem insertSeq_map_toInsRow (os : List Obs) (db : Db) :
    insertSeq db (os.map Obs.toInsRow)
      = some (db ++ withCreated db.length os) := by
  have h := insertSeq_all_some (os.map Obs.toInsRow) db ?_
  · rw [h, filterMap_toObs_map]
  · intro r hr
    rcases List.mem_map.mp hr with ⟨o, _, rfl⟩
    simp [Obs.toInsRow, InsRow.toObs]

theorem buildRows_ok (la lo : ℚ) :
    ∀ (ts : List Ts) (tes hus : List (Option ℚ)),
      ts.length ≤ tes.length → ts.length ≤ hus.length →
      buildRows la lo ts tes hus
        = .ok ((ts.zip (tes.zip hus)).map fun p =>
            ⟨p.1, la, lo, p.2.1.getD 0, p.2.2.getD 0⟩) := by
  intro ts
  induction ts with
  | nil => intro tes hus _ _; simp [buildRows]
  | cons t ts ih =>
    intro tes hus h1 h2
    rcases tes with _ | ⟨te, tes⟩
    · simp at h1
    rcases hus with _ | ⟨hu, hus⟩
    · simp at h2
    have h1' : ts.length ≤ tes.length := by
      simp only [List.length_cons] at h1; omega
    have h2' : ts.length ≤ hus.length := by
      simp only [List.length_cons] at h2; omega
    simp only [buildRows]
    rw [ih tes hus h1' h2']
    rfl

theorem buildRows_short (la lo : ℚ) :
    ∀ (ts : List Ts) (tes hus : List (Option ℚ)),
      tes.length < ts.length ∨ hus.length < ts.length →
      buildRows la lo ts tes hus = .error .indexError := by
  intro ts
  induction ts with
  | nil => intro tes hus h; rcases h with h | h <;> simp at h
  | cons t ts ih =>
    intro tes hus h
    rcases tes with _ | ⟨te, tes⟩
    · simp [buildRows]
    rcases hus with _ | ⟨hu, hus⟩
    · simp [buildRows]
    have h' : tes.length < ts.length ∨ hus.length < ts.length := by
      simp only [List.length_cons] at h; omega
    simp only [buildRows]
    rw [ih tes hus h']
    rfl

theorem buildRows_length (la lo : ℚ) (ts : List Ts) (tes hus : List (Option ℚ))
    (rows : List Obs) (h : buildRows la lo ts tes hus = .ok rows) :
    rows.length = ts.length := by
  by_cases h1 : tes.length < ts.length ∨ hus.length < ts.length
  · rw [buildRows_short la lo ts tes hus h1] at h
    simp at h
  · push_neg at h1
    rw [buildRows_ok la lo ts tes hus h1.1 h1.2] at h
    injection h with h
    subst h
    simp only [List.length_map, List.length_zip]
    omega

theorem process_ok_length (resp : Hourly) (la lo : ℚ) (rows : List Obs)
    (h : process_weather_data resp la lo = .ok rows) :
    rows.length = resp.time.length ∧ resp.time ≠ [] := by
  unfold process_weather_data at h
  split at h
  · cases h
  · rename_i hc
    push_neg at hc
    exact ⟨buildRows_length la lo resp.time resp.temperature_2m
      resp.relative_humidity_2m rows h, hc.1⟩

theorem fetch_store_ok (resp : Hourly) (la lo : ℚ) (db : Db) (rows : List Obs)
    (h : process_weather_data resp la lo = .ok rows) :
    fetch_and_store_weather_data (.ok resp) la lo db true
      = (db ++ withCreated db.length rows,
         .success ("Successfully stored " ++ toString rows.length ++ " weather records")
           rows.length la lo "2 days") := by
  simp only [fetch_and_store_weather_data, insert_weather_data, h,
    insertSeq_map_toInsRow, eq_self_iff_true, if_true]
  rfl

theorem pickLater_mem :
    ∀ (db : Db) (acc : Option DbRow) (m : DbRow),
      db.foldl pickLater acc = some m → m ∈ db ∨ acc = some m := by
  intro db
  induction db with
  | nil => intro acc m h; right; exact h
  | cons r rs ih =>
    intro acc m h
    rcases ih (pickLater acc r) m h with hm | hm
    · left; exact List.mem_cons_of_mem _ hm
    · rcases acc with _ | a
      · left
        simp only [pickLater] at hm
        cases hm
        exact List.mem_cons_self _ _
      · by_cases hc : a.created_at < r.created_at
        · left
          simp only [pickLater, if_pos hc] at hm
          cases hm
          exact List.mem_cons_self _ _
        · right
          simp only [pickLater, if_neg hc] at hm
          exact hm

theorem latestRow_concat (xs : Db) (x : DbRow) :
    latestRow (xs ++ [x]) = pickLater (latestRow xs) x := by
  simp [latestRow, List.foldl_append]

theorem latestRow_getLast :
    ∀ (db : Db), db.Pairwise (fun a b => a.created_at < b.created_at) →
      latestRow db = db.getLast? := by
  intro db
  induction db using List.reverseRecOn with
  | nil => intro _; rfl
  | append_singleton xs x ih =>
    intro h
    rw [latestRow_concat]
    rcases hx : latestRow xs with _ | m
    · simp [pickLater, List.getLast?_concat]
    · have hm : m ∈ xs := by
        rcases pickLater_mem xs none m hx with h' | h'
        · exact h'
        · cases h'
      have hlt : m.created_at < x.created_at :=
        (List.pairwise_append.mp h).2.2 m hm x (by simp)
      simp [pickLater, hlt, List.getLast?_concat]

theorem byLocation_sorted (now : Ts) (la lo : ℚ) (days : Int) (db : Db) :
    List.Sorted Obs.tsGe (get_weather_data_by_location now la lo days db) :=
  List.sorted_insertionSort Obs.tsGe _

theorem byLocation_perm (now : Ts) (la lo : ℚ) (days : Int) (db : Db) :
    (get_weather_data_by_location now la lo days db).Perm
      ((db.filter fun r =>
        decide (r.obs.latitude = la ∧ r.obs.longitude = lo ∧
          now - 24 * days ≤ r.obs.timestamp)).map DbRow.obs) :=
  List.perm_insertionSort Obs.tsGe _

theorem latest_sorted (now : Ts) (db : Db) :
    List.Sorted Obs.tsGe (get_latest_location_data now db) := by
  unfold get_latest_location_data
  rcases latestRow db with _ | m
  · exact List.sorted_nil
  · exact byLocation_sorted now _ _ 2 db

theorem generate_excel_eq (laP loP : Option ℚ) (now : Ts) (db : Db)
    (h : export_selection laP loP now db ≠ []) :
    generate_excel_export laP loP now db
      = .ok ⟨["Weather Data"], EXCEL_COLUMNS,
          List.insertionSort Obs.tsLe (export_selection laP loP now db)⟩ := by
  unfold generate_excel_export
  rw [if_neg h]

theorem generate_excel_err (laP loP : Option ℚ) (now : Ts) (db : Db)
    (h : export_selection laP loP now db = []) :
    generate_excel_export laP loP now db
      = .error ("No weather data available for export" ++ location_msg laP loP) := by
  unfold generate_excel_export
  rw [if_pos h]

theorem generate_pdf_eq (laP loP : Option ℚ) (now : Ts) (db : Db)
    (h : export_selection laP loP now db ≠ []) :
    generate_pdf_report laP loP now db
      = .ok ⟨((List.insertionSort Obs.tsLe (export_selection laP loP now db)).headD
            default).latitude,
          ((List.insertionSort Obs.tsLe (export_selection laP loP now db)).headD
            default).longitude,
          (List.insertionSort Obs.tsLe (export_selection laP loP now db)).length,
          List.insertionSort Obs.tsLe (export_selection laP loP now db)⟩ := by
  unfold generate_pdf_report
  rw [if_neg h]

theorem generate_pdf_err (laP loP : Option ℚ) (now : Ts) (db : Db)
    (h : export_selection laP loP now db = []) :
    generate_pdf_report laP loP now db
      = .error ("No weather data available for PDF report" ++ location_msg laP loP) := by
  unfold generate_pdf_report
  rw [if_pos h]

theorem validate_fails (latP lonP : Param)
    (h : (latP = none ∨ lonP = none) ∨
         (latP = some PVal.nonNumeric ∨ lonP = some PVal.nonNumeric) ∨
         (∃ x, latP = some (PVal.num x) ∧ ¬(-90 ≤ x ∧ x ≤ 90)) ∨
         (∃ y, lonP = some (PVal.num y) ∧ ¬(-180 ≤ y ∧ y ≤ 180))) :
    ∃ m, validate_coordinates_input latP lonP = some m := by
  rcases latP with _ | a
  · rcases lonP with _ | b <;> exact ⟨msg_required, rfl⟩
  rcases lonP with _ | b
  · rcases a with _ | x <;> exact ⟨msg_required, rfl⟩
  rcases a with _ | x
  · rcases b with _ | y <;> exact ⟨msg_notNumbers, rfl⟩
  rcases b with _ | y
  · exact ⟨msg_notNumbers, rfl⟩
  have hr : ¬(-90 ≤ x ∧ x ≤ 90) ∨ ¬(-180 ≤ y ∧ y ≤ 180) := by
    rcases h with (h | h) | (h | h) | ⟨x', hx', hp⟩ | ⟨y', hy', hp⟩
    · exact absurd h (by simp)
    · exact absurd h (by simp)
    · exact absurd h (by simp)
    · exact absurd h (by simp)
    · injection hx' with h1
      injection h1 with h2
      subst h2
      exact Or.inl hp
    · injection hy' with h1
      injection h1 with h2
      subst h2
      exact Or.inr hp
  by_cases hx : -90 ≤ x ∧ x ≤ 90
  · have hy : ¬(-180 ≤ y ∧ y ≤ 180) := by
      rcases hr with h' | h'
      · exact absurd hx h'
      · exact h'
    exact ⟨msg_lonRange, by simp [validate_coordinates_input, hx, hy]⟩
  · exact ⟨msg_latRange, by simp [validate_coordinates_input, hx]⟩

/-! ### Concrete data shared by witnesses and counterexamples -/

/-- An observation at location (10,10), observed at hour 5. -/
def exObsA : Obs := ⟨5, 10, 10, 1, 50⟩

/-- An observation at location (20,20), observed at hour 0 (older observation
time, but inserted later). -/
def exObsB : Obs := ⟨0, 20, 20, 2, 60⟩

/-- A store holding one row for (10,10) ingested first and one row for
(20,20) ingested second. -/
def exDb2 : Db := [⟨exObsA, 0⟩, ⟨exObsB, 1⟩]

/-- A two-hour upstream response for the null-handling scenarios: the second
temperature and the first humidity are null. -/
def exResp : Hourly := ⟨[0, 1], [some 1, none], [some 50, some 60]⟩

/-- The rows `process_weather_data` builds from `exResp` at (10,10). -/
def exRows : List Obs := [⟨0, 10, 10, 1, 50⟩, ⟨1, 10, 10, 0, 60⟩]

/-! ### Claims -/

/-- C5: the store's batch insert puts all rows in as one transaction and
returns the count inserted; on any failure (storage-engine failure, or a
constraint-violating row anywhere in the batch) the store is left exactly
unchanged — no partial insert — and the error is surfaced to the caller. -/
theorem C5_insert_transactional (db : Db) (batch : List InsRow) (engineOk : Bool) :
    ((engineOk = true ∧ ∀ r ∈ batch, (InsRow.toObs r).isSome) →
      insert_weather_data db batch engineOk
        = (db ++ withCreated db.length (batch.filterMap InsRow.toObs),
           .ok batch.length) ∧
      (insert_weather_data db batch engineOk).1.map DbRow.obs
        = db.map DbRow.obs ++ batch.filterMap InsRow.toObs) ∧
    ((engineOk = false ∨ ∃ r ∈ batch, InsRow.toObs r = none) →
      insert_weather_data db batch engineOk = (db, .error .persistenceError)) := by
  constructor
  · rintro ⟨rfl, hall⟩
    have h := insertSeq_all_some batch db hall
    refine ⟨?_, ?_⟩
    · simp [insert_weather_data, h]
    · simp [insert_weather_data, h, withCreated_map_obs]
  · rintro (rfl | hex)
    · simp [insert_weather_data]
    · rcases engineOk with _ | _
      · simp [insert_weather_data]
      · simp [insert_weather_data, insertSeq_none batch db hex]

/-- Witness for C5: a one-row batch is inserted with count 1; a batch whose
row has a null timestamp (NOT NULL violation) leaves the store unchanged. -/
theorem C5_witness :
    (∀ r ∈ [Obs.toInsRow ⟨0, 10, 10, 1, 50⟩], (InsRow.toObs r).isSome) ∧
    insert_weather_data [] [Obs.toInsRow ⟨0, 10, 10, 1, 50⟩] true
      = ([⟨⟨0, 10, 10, 1, 50⟩, 0⟩], Except.ok 1) ∧
    insert_weather_data [] [⟨none, some 10, some 10, some 1, some 50⟩] true
      = ([], Except.error Err.persistenceError) :=
  ⟨by decide,
   ((C5_insert_transactional [] [Obs.toInsRow ⟨0, 10, 10, 1, 50⟩] true).1
      ⟨rfl, by decide⟩).1.trans (by decide),
   (C5_insert_transactional [] [⟨none, some 10, some 10, some 1, some 50⟩] true).2
      (Or.inr ⟨⟨none, some 10, some 10, some 1, some 50⟩, by decide, rfl⟩)⟩

/-- C7: ingestion is not idempotent: running the same successful ingestion
(the same upstream window for the same coordinate) twice appends the
normalized rows twice — the rows added are exactly double those of a single
ingestion, for any starting store state, and the count of rows matching any
predicate grows by twice the batch's matching count (no deduplication). -/
theorem C7_duplicate_ingestion (resp : Hourly) (la lo : ℚ) (db : Db)
    (rows : List Obs) (h : process_weather_data resp la lo = .ok rows) :
    (fetch_and_store_weather_data (.ok resp) la lo db true).1.map DbRow.obs
      = db.map DbRow.obs ++ rows ∧
    ((fetch_and_store_weather_data (.ok resp) la lo
        (fetch_and_store_weather_data (.ok resp) la lo db true).1 true).1.map DbRow.obs
      = db.map DbRow.obs ++ rows ++ rows) ∧
    (∀ p : Obs → Bool,
      ((fetch_and_store_weather_data (.ok resp) la lo
          (fetch_and_store_weather_data (.ok resp) la lo db true).1 true).1.map
            DbRow.obs).countP p
        = (db.map DbRow.obs).countP p + 2 * rows.countP p) ∧
    ((fetch_and_store_weather_data (.ok resp) la lo
        (fetch_and_store_weather_data (.ok resp) la lo db true).1 true).1.length
        - db.length
      = 2 * ((fetch_and_store_weather_data (.ok resp) la lo db true).1.length
        - db.length)) := by
  have h1 := fetch_store_ok resp la lo db rows h
  have e1 : (fetch_and_store_weather_data (.ok resp) la lo db true).1
      = db ++ withCreated db.length rows := by rw [h1]
  have h2 := fetch_store_ok resp la lo (db ++ withCreated db.length rows) rows h
  have e2 : (fetch_and_store_weather_data (.ok resp) la lo
      (fetch_and_store_weather_data (.ok resp) la lo db true).1 true).1
      = (db ++ withCreated db.length rows)
        ++ withCreated (db ++ withCreated db.length rows).length rows := by
    rw [e1, h2]
  refine ⟨?_, ?_, ?_, ?_⟩
  · rw [e1]; simp [withCreated_map_obs]
  · rw [e2]; simp [withCreated_map_obs]
  · intro p
    rw [e2]
    simp only [List.map_append, withCreated_map_obs, List.countP_append]
    omega
  · rw [e2, e1]
    simp only [List.length_append, withCreated_length]
    omega

/-- Witness for C7: ingesting `exResp` for (10,10) twice into an empty store
yields twice the rows of a single ingestion. -/
theorem C7_witness :
    process_weather_data exResp 10 10 = Except.ok exRows ∧
    ((fetch_and_store_weather_data (.ok exResp) 10 10
        (fetch_and_store_weather_data (.ok exResp) 10 10 [] true).1 true).1.length
        - ([] : Db).length
      = 2 * ((fetch_and_store_weather_data (.ok exResp) 10 10 [] true).1.length
        - ([] : Db).length)) :=
  ⟨by decide, (C7_duplicate_ingestion exResp 10 10 [] exRows (by decide)).2.2.2⟩

/-- C4: when the parallel arrays cover every index of the time array, a null
temperature or humidity at any index is coerced to 0.0 and the row is still
built and inserted: normalization succeeds with exactly one row per time
index (`getD 0` realizes the coercion), and the number of persisted rows is
`times.length` regardless of where nulls occur. -/
theorem C4_null_coercion (la lo : ℚ) (times : List Ts)
    (temps hums : List (Option ℚ)) (db : Db) (h1 : times ≠ [])
    (h2 : times.length ≤ temps.length) (h3 : times.length ≤ hums.length) :
    process_weather_data ⟨times, temps, hums⟩ la lo
      = .ok ((times.zip (temps.zip hums)).map fun p =>
          ⟨p.1, la, lo, p.2.1.getD 0, p.2.2.getD 0⟩) ∧
    ((times.zip (temps.zip hums)).map fun p =>
        (⟨p.1, la, lo, p.2.1.getD 0, p.2.2.getD 0⟩ : Obs)).length = times.length ∧
    (fetch_and_store_weather_data (.ok ⟨times, temps, hums⟩) la lo db true).1.length
      = db.length + times.length ∧
    (fetch_and_store_weather_data (.ok ⟨times, temps, hums⟩) la lo db true).2.isSuccess
      = true := by
  have hlt : 0 < times.length := List.length_pos.mpr h1
  have hte : temps ≠ [] := List.length_pos.mp (lt_of_lt_of_le hlt h2)
  have hhu : hums ≠ [] := List.length_pos.mp (lt_of_lt_of_le hlt h3)
  have hp : process_weather_data ⟨times, temps, hums⟩ la lo
      = .ok ((times.zip (temps.zip hums)).map fun p =>
          ⟨p.1, la, lo, p.2.1.getD 0, p.2.2.getD 0⟩) := by
    unfold process_weather_data
    rw [if_neg (by simp [h1, hte, hhu])]
    exact buildRows_ok la lo times temps hums h2 h3
  have hlen : ((times.zip (temps.zip hums)).map fun p =>
      (⟨p.1, la, lo, p.2.1.getD 0, p.2.2.getD 0⟩ : Obs)).length = times.length := by
    simp only [List.length_map, List.length_zip]
    omega
  have hf := fetch_store_ok ⟨times, temps, hums⟩ la lo db _ hp
  refine ⟨hp, hlen, ?_, ?_⟩
  · rw [hf]
    simp only [List.length_append, withCreated_length, hlen]
  · rw [hf]
    rfl

/-- Witness for C4: a series with one null temperature and one null humidity
is stored in full, with the nulls as 0.0. -/
theorem C4_witness :
    (([0, 1] : List Ts) ≠ []) ∧
    process_weather_data ⟨[0, 1], [some 5, none], [none, some 7]⟩ 40 (-74)
      = Except.ok [⟨0, 40, -74, 5, 0⟩, ⟨1, 40, -74, 0, 7⟩] ∧
    (fetch_and_store_weather_data (.ok ⟨[0, 1], [some 5, none], [none, some 7]⟩)
        40 (-74) [] true).1.length = ([] : Db).length + ([0, 1] : List Ts).length :=
  ⟨by decide,
   ((C4_null_coercion 40 (-74) [0, 1] [some 5, none] [none, some 7] []
      (by decide) (by decide) (by decide)).1).trans (by decide),
   (C4_null_coercion 40 (-74) [0, 1] [some 5, none] [none, some 7] []
      (by decide) (by decide) (by decide)).2.2.1⟩

/-- C10: an upstream response whose temperature or humidity array is
non-empty but shorter than its time array makes normalization fail while
indexing (`IndexError`), the whole ingestion returns an error summary, and
the store is unchanged — no partial prefix is ever persisted. -/
theorem C10_mismatched_arrays (times : List Ts) (temps hums : List (Option ℚ))
    (la lo : ℚ) (db : Db) (engineOk : Bool) (h1 : temps ≠ []) (h2 : hums ≠ [])
    (h3 : temps.length < times.length ∨ hums.length < times.length) :
    process_weather_data ⟨times, temps, hums⟩ la lo = .error .indexError ∧
    fetch_and_store_weather_data (.ok ⟨times, temps, hums⟩) la lo db engineOk
      = (db, Summary.error (Err.message .indexError)) := by
  have h0 : times ≠ [] := by
    have : 0 < times.length := by omega
    exact List.length_pos.mp this
  have hp : process_weather_data ⟨times, temps, hums⟩ la lo
      = .error .indexError := by
    unfold process_weather_data
    rw [if_neg (by simp [h0, h1, h2])]
    exact buildRows_short la lo times temps hums h3
  refine ⟨hp, ?_⟩
  simp [fetch_and_store_weather_data, hp]

/-- Witness for C10: a two-hour time array with a one-entry temperature
array fails the whole ingestion and stores nothing. -/
theorem C10_witness :
    (([some 1] : List (Option ℚ)).length < ([0, 1] : List Ts).length ∨
      ([some 2, some 3] : List (Option ℚ)).length < ([0, 1] : List Ts).length) ∧
    fetch_and_store_weather_data (.ok ⟨[0, 1], [some 1], [some 2, some 3]⟩)
        10 10 [] true
      = ([], Summary.error (Err.message .indexError)) :=
  ⟨by decide,
   (C10_mismatched_arrays [0, 1] [some 1] [some 2, some 3] 10 10 [] true
      (by decide) (by decide) (by decide)).2⟩

/-- C2: a /weather-report request with a missing, non-numeric, or
out-of-range coordinate gets a 400 response; the result is independent of the
upstream fetch outcome (validation precedes fetch) and the store is
unchanged (no write); out-of-range values get the message naming the
violated bound, and missing parameters the "required" message. -/
theorem C2_validation_rejects (latP lonP : Param) (f1 f2 : Except Err Hourly)
    (db : Db) (engineOk : Bool)
    (h : (latP = none ∨ lonP = none) ∨
         (latP = some PVal.nonNumeric ∨ lonP = some PVal.nonNumeric) ∨
         (∃ x, latP = some (PVal.num x) ∧ ¬(-90 ≤ x ∧ x ≤ 90)) ∨
         (∃ y, lonP = some (PVal.num y) ∧ ¬(-180 ≤ y ∧ y ≤ 180))) :
    (weather_report_endpoint latP lonP f1 db engineOk).1 = db ∧
    (weather_report_endpoint latP lonP f1 db engineOk).2.status = 400 ∧
    weather_report_endpoint latP lonP f1 db engineOk
      = weather_report_endpoint latP lonP f2 db engineOk ∧
    (∀ x y, latP = some (PVal.num x) → lonP = some (PVal.num y) →
      ¬(-90 ≤ x ∧ x ≤ 90) →
      (weather_report_endpoint latP lonP f1 db engineOk).2.body
        = .errJson msg_latRange) ∧
    (∀ x y, latP = some (PVal.num x) → lonP = some (PVal.num y) →
      (-90 ≤ x ∧ x ≤ 90) → ¬(-180 ≤ y ∧ y ≤ 180) →
      (weather_report_endpoint latP lonP f1 db engineOk).2.body
        = .errJson msg_lonRange) ∧
    ((latP = none ∨ lonP = none) →
      (weather_report_endpoint latP lonP f1 db engineOk).2.body
        = .errJson msg_required) := by
  obtain ⟨m, hm⟩ := validate_fails latP lonP h
  refine ⟨?_, ?_, ?_, ?_, ?_, ?_⟩
  · simp [weather_report_endpoint, hm]
  · simp [weather_report_endpoint, hm]
  · simp [weather_report_endpoint, hm]
  · rintro x y rfl rfl hx
    have hv : validate_coordinates_input (some (PVal.num x)) (some (PVal.num y))
        = some msg_latRange := by
      simp [validate_coordinates_input, hx]
    simp [weather_report_endpoint, hv]
  · rintro x y rfl rfl hx hy
    have hv : validate_coordinates_input (some (PVal.num x)) (some (PVal.num y))
        = some msg_lonRange := by
      simp [validate_coordinates_input, hx, hy]
    simp [weather_report_endpoint, hv]
  · rintro (rfl | rfl)
    · rcases lonP with _ | b <;> simp [weather_report_endpoint, validate_coordinates_input]
    · rcases latP with _ | a <;> simp [weather_report_endpoint, validate_coordinates_input]

/-- Witness for C2: `lat=91` is rejected with 400 and the latitude-bound
message, identically for an unreachable and a reachable upstream, without a
store write. -/
theorem C2_witness :
    (¬((-90 : ℚ) ≤ 91 ∧ (91 : ℚ) ≤ 90)) ∧
    (weather_report_endpoint (some (PVal.num 91)) (some (PVal.num 0))
        (.error (.fetchError "down")) [] true).1 = [] ∧
    (weather_report_endpoint (some (PVal.num 91)) (some (PVal.num 0))
        (.error (.fetchError "down")) [] true).2.status = 400 ∧
    weather_report_endpoint (some (PVal.num 91)) (some (PVal.num 0))
        (.error (.fetchError "down")) [] true
      = weather_report_endpoint (some (PVal.num 91)) (some (PVal.num 0))
        (.ok ⟨[0], [some 1], [some 2]⟩) [] true ∧
    (weather_report_endpoint (some (PVal.num 91)) (some (PVal.num 0))
        (.error (.fetchError "down")) [] true).2.body = .errJson msg_latRange := by
  have h := C2_validation_rejects (some (PVal.num 91)) (some (PVal.num 0))
    (.error (.fetchError "down")) (.ok ⟨[0], [some 1], [some 2]⟩) [] true
    (Or.inr (Or.inr (Or.inl ⟨91, rfl, by decide⟩)))
  exact ⟨by decide, h.1, h.2.1, h.2.2.1, h.2.2.2.1 91 0 rfl rfl (by decide)⟩

/-- C3: for an in-range coordinate, /weather-report either answers 200 with a
success summary whose records_count equals the length of the upstream hourly
time series (which is then non-empty, so a 200 never carries
records_count = 0 against a non-empty series) and whose latitude, longitude
and date_range echo the request, or answers 500 with an error summary. -/
theorem C3_success_count_or_500 (x y : ℚ) (hx : -90 ≤ x ∧ x ≤ 90)
    (hy : -180 ≤ y ∧ y ≤ 180) (fetchResult : Except Err Hourly) (db : Db)
    (engineOk : Bool) :
    (∃ resp, fetchResult = .ok resp ∧ resp.time ≠ [] ∧
      (weather_report_endpoint (some (PVal.num x)) (some (PVal.num y))
          fetchResult db engineOk).2
        = ⟨200, .summary (.success
            ("Successfully stored " ++ toString resp.time.length ++ " weather records")
            resp.time.length x y "2 days")⟩) ∨
    ((weather_report_endpoint (some (PVal.num x)) (some (PVal.num y))
        fetchResult db engineOk).2.status = 500 ∧
      ∃ m, (weather_report_endpoint (some (PVal.num x)) (some (PVal.num y))
        fetchResult db engineOk).2.body = .summary (Summary.error m)) := by
  have hv : validate_coordinates_input (some (PVal.num x)) (some (PVal.num y))
      = none := by
    simp [validate_coordinates_input, hx, hy]
  rcases fetchResult with e | resp
  · right
    refine ⟨?_, ⟨Err.message e, ?_⟩⟩ <;>
      simp [weather_report_endpoint, hv, fetch_and_store_weather_data]
  · rcases hp : process_weather_data resp x y with err | rows
    · right
      refine ⟨?_, ⟨Err.message err, ?_⟩⟩ <;>
        simp [weather_report_endpoint, hv, fetch_and_store_weather_data, hp]
    · rcases engineOk with _ | _
      · right
        refine ⟨?_, ⟨Err.message .persistenceError, ?_⟩⟩ <;>
          simp [weather_report_endpoint, hv, fetch_and_store_weather_data, hp,
            insert_weather_data]
      · left
        obtain ⟨hlen, hne⟩ := process_ok_length resp x y rows hp
        refine ⟨resp, rfl, hne, ?_⟩
        have hf := fetch_store_ok resp x y db rows hp
        simp [weather_report_endpoint, hv, hf, hlen]

/-- Witness for C3: a valid coordinate with a one-entry upstream series gets
a 200 response. -/
theorem C3_witness :
    ((-90 : ℚ) ≤ 40 ∧ (40 : ℚ) ≤ 90) ∧ ((-180 : ℚ) ≤ -74 ∧ (-74 : ℚ) ≤ 180) ∧
    (weather_report_endpoint (some (PVal.num 40)) (some (PVal.num (-74)))
        (.ok ⟨[0], [some 1], [some 2]⟩) ([] : Db) true).2.status = 200 := by
  refine ⟨by decide, by decide, ?_⟩
  rcases C3_success_count_or_500 40 (-74) (by decide) (by decide)
      (.ok ⟨[0], [some 1], [some 2]⟩) [] true with ⟨resp, hr, hne, h200⟩ | ⟨h500, _⟩
  · rw [h200]
  · exact absurd h500 (by decide)

/-- C6: with the insertion stamps strictly increasing in arrival order (the
store's invariant), the latest-location query keys on the most recently
inserted row — the last element — not on observation timestamps; it returns
exactly that location's rows inside the trailing 48-hour window, sorted
descending by timestamp, and returns `[]` on an empty store. -/
theorem C6_most_recent_location (now : Ts) (db : Db)
    (hmono : db.Pairwise fun a b => a.created_at < b.created_at) :
    get_latest_location_data now ([] : Db) = [] ∧
    List.Sorted Obs.tsGe (get_latest_location_data now db) ∧
    (∀ last, db.getLast? = some last →
      get_latest_location_data now db
        = get_weather_data_by_location now last.obs.latitude last.obs.longitude 2 db ∧
      (get_latest_location_data now db).Perm
        ((db.filter fun r => decide (r.obs.latitude = last.obs.latitude ∧
            r.obs.longitude = last.obs.longitude ∧
            now - 48 ≤ r.obs.timestamp)).map DbRow.obs)) := by
  refine ⟨rfl, latest_sorted now db, ?_⟩
  intro last hlast
  have hl : latestRow db = some last := by
    rw [latestRow_getLast db hmono, hlast]
  have he : get_latest_location_data now db
      = get_weather_data_by_location now last.obs.latitude last.obs.longitude 2 db := by
    unfold get_latest_location_data
    rw [hl]
  refine ⟨he, ?_⟩
  rw [he]
  exact byLocation_perm now last.obs.latitude last.obs.longitude 2 db

/-- Witness for C6: after ingesting a (10,10) row and then a (20,20) row —
the (20,20) row having an older observation timestamp — only the (20,20) row
is returned. -/
theorem C6_witness :
    (exDb2.Pairwise fun a b => a.created_at < b.created_at) ∧
    get_latest_location_data 10 exDb2 = [exObsB] := by
  refine ⟨by decide, ?_⟩
  have h := (C6_most_recent_location 10 exDb2 (by decide)).2.2 ⟨exObsB, 1⟩ (by decide)
  rw [h.1]
  decide

/-- C8: an export request whose data selection is empty (for example, an
empty store) is answered 500 with a "no data" message — never 200 with an
empty-but-valid file; the same holds for the generators' explicit-coordinate
branch when the by-location selection is empty. -/
theorem C8_empty_selection_500 (args : ExportArgs) (now : Ts) (db : Db)
    (h : get_latest_location_data now db = []) :
    excel_export_endpoint args now db
      = (500, .error
          "Excel export failed: No weather data available for export for the latest location") ∧
    pdf_export_endpoint args now db
      = (500, .error
          "PDF export failed: No weather data available for PDF report for the latest location") ∧
    (∀ la lo, get_weather_data_by_location now la lo 2 db = [] →
      generate_excel_export (some la) (some lo) now db
        = .error ("No weather data available for export"
            ++ location_msg (some la) (some lo)) ∧
      generate_pdf_report (some la) (some lo) now db
        = .error ("No weather data available for PDF report"
            ++ location_msg (some la) (some lo))) := by
  have hsel : export_selection none none now db = [] := h
  refine ⟨?_, ?_, ?_⟩
  · unfold excel_export_endpoint
    rw [generate_excel_err none none now db hsel]
    rfl
  · unfold pdf_export_endpoint
    rw [generate_pdf_err none none now db hsel]
    rfl
  · intro la lo hloc
    exact ⟨generate_excel_err (some la) (some lo) now db hloc,
      generate_pdf_err (some la) (some lo) now db hloc⟩

/-- Witness for C8: both export endpoints on an empty store return 500 with
the no-data message, even when coordinates are supplied. -/
theorem C8_witness :
    get_latest_location_data 0 ([] : Db) = [] ∧
    excel_export_endpoint ⟨some 10, some 10⟩ 0 ([] : Db)
      = (500, .error
          "Excel export failed: No weather data available for export for the latest location") ∧
    pdf_export_endpoint ⟨some 10, some 10⟩ 0 ([] : Db)
      = (500, .error
          "PDF export failed: No weather data available for PDF report for the latest location") :=
  ⟨rfl, (C8_empty_selection_500 ⟨some 10, some 10⟩ 0 [] rfl).1,
   (C8_empty_selection_500 ⟨some 10, some 10⟩ 0 [] rfl).2.1⟩

/-- C9: on a non-empty selection the spreadsheet export is a single sheet
"Weather Data" with the five columns in order, holding exactly one row per
selected observation (a permutation, count preserved) re-sorted ascending by
timestamp (monotonically non-decreasing), each column width auto-sized to
its longest cell content plus padding and capped at 50 units. -/
theorem C9_excel_tabular (laP loP : Option ℚ) (now : Ts) (db : Db)
    (h : export_selection laP loP now db ≠ []) :
    generate_excel_export laP loP now db
      = .ok ⟨["Weather Data"], EXCEL_COLUMNS,
          List.insertionSort Obs.tsLe (export_selection laP loP now db)⟩ ∧
    (∀ f, generate_excel_export laP loP now db = .ok f →
      f.sheets = ["Weather Data"] ∧
      f.columns = ["timestamp", "latitude", "longitude", "temperature_2m",
        "relative_humidity_2m"] ∧
      f.rows.Perm (export_selection laP loP now db) ∧
      f.rows.length = (export_selection laP loP now db).length ∧
      List.Sorted Obs.tsLe f.rows ∧
      (∀ w ∈ excel_column_widths f, w ≤ 50) ∧
      (∀ lens : List Nat, lens.foldl max 0 + 2 ≤ 50 →
        adjusted_width lens = lens.foldl max 0 + 2)) := by
  have hgen := generate_excel_eq laP loP now db h
  refine ⟨hgen, ?_⟩
  intro f hf
  rw [hgen] at hf
  injection hf with hf
  subst hf
  refine ⟨rfl, rfl, List.perm_insertionSort _ _, List.length_insertionSort _ _,
    List.sorted_insertionSort _ _, ?_, ?_⟩
  · intro w hw
    obtain ⟨j, _, rfl⟩ := List.mem_map.mp hw
    exact min_le_right _ _
  · intro lens hl
    exact min_eq_left hl

/-- Witness for C9: exporting the store `exDb2` with no explicit coordinate
yields the single-sheet file holding the selected rows sorted ascending. -/
theorem C9_witness :
    export_selection none none 10 exDb2 ≠ [] ∧
    generate_excel_export none none 10 exDb2
      = .ok ⟨["Weather Data"], EXCEL_COLUMNS,
          List.insertionSort Obs.tsLe (export_selection none none 10 exDb2)⟩ :=
  ⟨by decide, (C9_excel_tabular none none 10 exDb2 (by decide)).1⟩

/-- C1 counterexample: in `exDb2`, rows for (10,10) were ingested before a
row for (20,20).  A GET /export/excel (or /export/pdf) request explicitly
supplying lat=10, lon=10 should — per the claim — be built from
queryByLocation(10, 10, 2 days), which is the non-empty `[exObsA]`; instead
both endpoints ignore the query parameters and return the most recently
ingested location's rows `[exObsB]`. -/
theorem C1_counterexample :
    get_weather_data_by_location 10 10 10 2 exDb2 = [exObsA] ∧
    excel_export_endpoint ⟨some 10, some 10⟩ 10 exDb2
      = (200, .ok ⟨["Weather Data"], EXCEL_COLUMNS, [exObsB]⟩) ∧
    pdf_export_endpoint ⟨some 10, some 10⟩ 10 exDb2
      = (200, .ok ⟨20, 20, 1, [exObsB]⟩) := by
  decide

/-- C1 amended: the export endpoints never read the request's query
parameters — every /export/excel and /export/pdf response equals the
no-coordinate response and, on success, is built from
queryMostRecentLocationWindow(48 hours); the coordinate branch
(queryByLocation(lat, lon, 2 days)) exists only in the generator functions,
which the endpoints always call without coordinates. -/
theorem C1_exports_ignore_coordinates (args : ExportArgs) (now : Ts) (db : Db) :
    excel_export_endpoint args now db = excel_export_endpoint ⟨none, none⟩ now db ∧
    pdf_export_endpoint args now db = pdf_export_endpoint ⟨none, none⟩ now db ∧
    (∀ f, excel_export_endpoint args now db = (200, .ok f) →
      f.rows = List.insertionSort Obs.tsLe (get_latest_location_data now db)) ∧
    (∀ la lo f, generate_excel_export (some la) (some lo) now db = .ok f →
      f.rows = List.insertionSort Obs.tsLe
        (get_weather_data_by_location now la lo 2 db)) ∧
    (∀ la lo f, generate_pdf_report (some la) (some lo) now db = .ok f →
      f.rows = List.insertionSort Obs.tsLe
        (get_weather_data_by_location now la lo 2 db)) := by
  refine ⟨rfl, rfl, ?_, ?_, ?_⟩
  · intro f hf
    unfold excel_export_endpoint at hf
    rcases hg : generate_excel_export none none now db with m | g
    · rw [hg] at hf
      simp at hf
    · rw [hg] at hf
      simp only [Prod.mk.injEq, Except.ok.injEq] at hf
      obtain ⟨-, rfl⟩ := hf
      by_cases hsel : export_selection none none now db = []
      · rw [generate_excel_err none none now db hsel] at hg
        cases hg
      · rw [generate_excel_eq none none now db hsel] at hg
        injection hg with hg
        rw [← hg]
        rfl
  · intro la lo f hf
    by_cases hsel : export_selection (some la) (some lo) now db = []
    · rw [generate_excel_err (some la) (some lo) now db hsel] at hf
      cases hf
    · rw [generate_excel_eq (some la) (some lo) now db hsel] at hf
      injection hf with hf
      rw [← hf]
      rfl
  · intro la lo f hf
    by_cases hsel : export_selection (some la) (some lo) now db = []
    · rw [generate_pdf_err (some la) (some lo) now db hsel] at hf
      cases hf
    · rw [generate_pdf_eq (some la) (some lo) now db hsel] at hf
      injection hf with hf
      rw [← hf]
      rfl

/-- Witness for C1 (amended): a request with explicit coordinates gets the
same response as one without, built from the latest location's window. -/
theorem C1_witness :
    excel_export_endpoint ⟨some 10, some 10⟩ 10 exDb2
      = excel_export_endpoint ⟨none, none⟩ 10 exDb2 ∧
    excel_export_endpoint ⟨some 10, some 10⟩ 10 exDb2
      = (200, .ok ⟨["Weather Data"], EXCEL_COLUMNS, [exObsB]⟩) ∧
    (⟨["Weather Data"], EXCEL_COLUMNS, [exObsB]⟩ : ExcelFile).rows
      = List.insertionSort Obs.tsLe (get_latest_location_data 10 exDb2) :=
  ⟨(C1_exports_ignore_coordinates ⟨some 10, some 10⟩ 10 exDb2).1, by decide,
   (C1_exports_ignore_coordinates ⟨some 10, some 10⟩ 10 exDb2).2.2.1
     ⟨["Weather Data"], EXCEL_COLUMNS, [exObsB]⟩ (by decide)⟩

end WeatherApp
